import Mathlib

/-!
Verification of the ghauri blind SQL-injection engine specification against
its sources.  The Python modules under `ghauri/` are shallowly embedded:
pure string manipulation becomes Lean functions on `String`, the HTTP
transport becomes an explicit function argument `inject : String → Response`,
mutable configuration becomes explicit record arguments and return values,
and Python exceptions become `Except` results.  Helper functions that the
sources import but do not define (`check_boolean_responses`, `search_regex`,
`replace_with`, the `LENGTH_PAYLOADS` table) are modelled from the
specification and marked as such in their doc comments.
-/

namespace Ghauri

/-! ## Python string primitives -/

/-- Model of Python `str.replace(old, new)` on character lists: every
non-overlapping occurrence of `pat` is replaced by `rep`, scanning left to
right.  An empty pattern leaves the string unchanged (the sources never
replace an empty pattern).  The fuel argument, instantiated with the length
of the scanned list, makes the recursion structural: every step consumes at
least one character. -/
def replaceAllAux (pat rep : List Char) : Nat → List Char → List Char
  | 0, l => l
  | _ + 1, [] => []
  | fuel + 1, c :: rest =>
    if pat ≠ [] ∧ pat.isPrefixOf (c :: rest) then
      rep ++ replaceAllAux pat rep fuel ((c :: rest).drop pat.length)
    else
      c :: replaceAllAux pat rep fuel rest

/-- Model of Python `str.replace` lifted to `String`. -/
def pyReplace (s pat rep : String) : String :=
  ⟨replaceAllAux pat.data rep.data s.data.length s.data⟩

/-- Decide whether `pat` occurs as a contiguous substring of `s` (model of
Python `in` on strings). -/
def containsSubAux (pat : List Char) : List Char → Bool
  | [] => pat.isPrefixOf ([] : List Char)
  | c :: rest => pat.isPrefixOf (c :: rest) || containsSubAux pat rest

/-- Substring containment on `String` (Python `pat in s`). -/
def containsSub (s pat : String) : Bool :=
  containsSubAux pat.data s.data

/-- Python `str.format` restricted to the keyword arguments
`query=`, `position=`, `char=` actually passed by the extraction code; each
named placeholder is textually substituted.  The payload templates in
`common/payloads.py` contain no other placeholders. -/
def pyFormat (tpl query : String) (position : Nat) (char : String) : String :=
  pyReplace (pyReplace (pyReplace tpl "\x7bquery\x7d" query)
    "\x7bposition\x7d" (toString position)) "\x7bchar\x7d" char

/-- Python `str.format` with only `query=` and `char=` keyword arguments, as
called in `_get_output_length` phase 1 (`noc_tpl.format(query=q, char=pos)`). -/
def pyFormatQC (tpl query char : String) : String :=
  pyReplace (pyReplace tpl "\x7bquery\x7d" query) "\x7bchar\x7d" char

/-- Modelled from the spec: `replace_with` is imported by
`ghauri/core/extract.py` from `ghauri.common.utils` but is not defined in the
sources.  Section 4.6 of the spec shows the `=` comparator of a char-at
template being replaced by the strategy operator ("comparison replaced by
`NOT BETWEEN 0 AND k`", BINARY_GT probes `char_at(pos) > k`), so it is
modelled as textual replacement of the comparator. -/
def replace_with (s old new : String) : String :=
  pyReplace s old new

/-- Python `str.lower` on the ASCII range (the strings lowered by the
sources — `fetch_using` values and tamper names — are ASCII). -/
def charLower (c : Char) : Char :=
  if 65 ≤ c.toNat ∧ c.toNat ≤ 90 then Char.ofNat (c.toNat + 32) else c

/-- Python `str.lower` lifted to `String`. -/
def pyLower (s : String) : String :=
  ⟨s.data.map charLower⟩

/-- Truthiness of an optional string (Python `bool`): `None` and the empty
string are falsy. -/
def optStrTruthy : Option String → Bool
  | none => false
  | some s => s ≠ ""

/-- Truthiness of an optional integer (Python `bool`): `None` and `0` are
falsy. -/
def optNatTruthy : Option Nat → Bool
  | none => false
  | some n => n ≠ 0

/-! ## Data model: responses and oracle context (`core/request.py`, §3) -/

/-- Observation returned by the transport adapter; fields taken from the
response object built in `core/request.py` (`status_code`, `response_time`,
`content_length`, `text`, `filtered_text`, `redirected`).  Response times are
rationals (the code compares them with `>=` only). -/
structure Response where
  status_code : Nat
  response_time : ℚ
  content_length : Nat
  text : String
  filtered_text : String
  redirected : Bool
deriving DecidableEq, Repr

/-- Technique kind of the confirmed vector driving extraction
(`vector_type` argument, `"boolean"` or `"time"`). -/
inductive VectorType where
  | boolean
  | time
deriving DecidableEq, Repr

/-- Result of the boolean response comparison: a vulnerability verdict plus
the diagnostic `case` label. -/
structure CheckResult where
  vulnerable : Bool
  case : String
deriving DecidableEq, Repr

/-- Oracle context shared by `probe_operator` and the per-character
extraction routines of `core/extract.py`.  The field `checkBool` is modelled
from the spec: `check_boolean_responses` is imported from
`ghauri.common.utils` but is absent from the sources; §4.1 gives its contract
(compare the baseline and the two attack responses, yielding a vulnerable
flag and a case label), so it is carried as an abstract function of
`(base, attack, attack01, match_string)`. -/
structure OracleCtx where
  vector_type : Option VectorType
  attack01 : Option Response
  base_resp : Response
  match_string : Option String
  checkBool : Response → Response → Response → Option String → CheckResult
  timesec : ℚ

/-- Truth test applied to an attack response, exactly as inlined throughout
`core/extract.py`: in the boolean branch (`vector_type == "boolean" and
attack01`) the verdict of `check_boolean_responses`, in the time branch the
bare comparison `attack.response_time >= timesec`, otherwise `False`. -/
def isTrueOf (ctx : OracleCtx) (attack : Response) : Bool :=
  if ctx.vector_type = some VectorType.boolean then
    match ctx.attack01 with
    | some a01 => (ctx.checkBool ctx.base_resp attack a01 ctx.match_string).vulnerable
    | none => false
  else if ctx.vector_type = some VectorType.time then
    decide (attack.response_time ≥ ctx.timesec)
  else
    false

/-- Composite probe oracle: send the rendered expression through the
transport and classify the response (`attack = inject_expression(...)`
followed by the inlined truth test). -/
def probeOf (ctx : OracleCtx) (inject : String → Response) (expr : String) : Bool :=
  isTrueOf ctx (inject expr)

/-- Modelled from the spec: `is_slow` as §4.1 words it — "`is_slow(R,
threshold) → R.response_time ≥ threshold − jitter`, with jitter = max(0.5s,
10% of threshold)".  This definition follows the specification text and is
compared against the source's time test (`isTrueOf`, time branch). -/
def is_slow_spec (r : Response) (threshold : ℚ) : Bool :=
  decide (r.response_time ≥ threshold - max (1/2 : ℚ) (threshold / 10))

/-! ## Operator probe (`GhauriExtractor.probe_operator`) -/

/-- Comparison search strategies (`SearchStrategy` enum in
`core/extract.py`). -/
inductive SearchStrategy where
  | binary_gt
  | between
  | in_op
  | linear_eq
deriving DecidableEq, Repr

/-- Outcome of the operator probe (`OperatorProbe` dataclass). -/
structure OperatorProbe where
  strategy : SearchStrategy
  forced : Bool
deriving DecidableEq, Repr

/-- The four constant-truth probes in source order (`probes` list in
`probe_operator`). -/
def probeList : List (SearchStrategy × String) :=
  [(SearchStrategy.binary_gt, "6590>6420"),
   (SearchStrategy.between, "6590 NOT BETWEEN 0 AND 6420"),
   (SearchStrategy.in_op, "(SELECT 45) IN (10,45,60)"),
   (SearchStrategy.linear_eq, "09845=9845")]

/-- The `name_map` of `probe_operator`, keyed by the lowered `fetch_using`
value. -/
def nameMap (s : String) : Option SearchStrategy :=
  if s = "binary" then some SearchStrategy.binary_gt
  else if s = "between" then some SearchStrategy.between
  else if s = "in" then some SearchStrategy.in_op
  else if s = "equal" then some SearchStrategy.linear_eq
  else none

/-- Rendering of one operator probe before it is sent: `[INFERENCE]` is
replaced by the constant inference and `[SLEEPTIME]` by `str(timesec)`
(`expr = vector.replace("[INFERENCE]", inference).replace("[SLEEPTIME]",
str(timesec))`).  `apply_tampers` in `core/extract.py` is the identity
placeholder (`return TamperResult(payload=payload)`), so it is omitted. -/
def operatorProbeExpr (vector : String) (timesec : ℚ) (inference : String) : String :=
  pyReplace (pyReplace vector "[INFERENCE]" inference) "[SLEEPTIME]" (toString timesec)

/-- The fatal message of the `RuntimeError` raised when every comparison
operator is filtered. -/
def extractionImpossibleMsg : String :=
  "All comparison operators appear filtered → extraction impossible"

/-- Loop body of `probe_operator`: try each strategy in order, return the
first one whose probe the oracle classifies as vulnerable, together with the
number of transport calls made. -/
def probeOperatorLoop (ctx : OracleCtx) (inject : String → Response)
    (vector : String) (timesec : ℚ) (forcedFlag : Bool) :
    List (SearchStrategy × String) → Except String OperatorProbe × Nat
  | [] => (Except.error extractionImpossibleMsg, 0)
  | (strat, inference) :: rest =>
    let expr := operatorProbeExpr vector timesec inference
    if probeOf ctx inject expr then
      (Except.ok ⟨strat, forcedFlag⟩, 1)
    else
      let (r, n) := probeOperatorLoop ctx inject vector timesec forcedFlag rest
      (r, n + 1)

/-- Embedding of `GhauriExtractor.probe_operator`.  When `fetch_using` is a
truthy string whose lowering is one of `binary`, `between`, `in`, `equal`,
the probe list is restricted to that single strategy (keeping its inference
string); otherwise all four are tried in order.  The boolean `forced` flag of
the result is `bool(forced)` of the raw option.  Raising the `RuntimeError`
is modelled by `Except.error`; the second component counts transport calls. -/
def probe_operator (ctx : OracleCtx) (inject : String → Response)
    (vector : String) (timesec : ℚ) (fetch_using : Option String) :
    Except String OperatorProbe × Nat :=
  let forcedFlag := optStrTruthy fetch_using
  let probes :=
    match fetch_using with
    | some f =>
      if forcedFlag && (nameMap (pyLower f)).isSome then
        match nameMap (pyLower f) with
        | some strat => (probeList.filter (fun p => p.1 = strat)).take 1
        | none => probeList
      else probeList
    | none => probeList
  probeOperatorLoop ctx inject vector timesec forcedFlag probes

/-! ## Per-character extraction (`_char_binary_gt`, `_char_between`,
`_char_in`, `_char_linear`) -/

/-- Arguments shared by the bisection-style extraction routines. -/
structure CharProbeArgs where
  vector : String
  offset : Nat
  queryable : String
  payload_tpl : String
  min_ord : Int
  max_ord : Int
deriving Repr

/-- Rendered wire expression for one comparison probe at the given ordinal:
`cond = payload_tpl.format(query=queryable, position=offset, char=mid)`, the
`=` comparator replaced by the strategy operator, then
`expr = vector.replace("[INFERENCE]", cond)`.  The routines substitute no
other placeholder, and `apply_tampers` is the identity placeholder. -/
def cmpProbeExpr (op : String) (a : CharProbeArgs) (mid : Int) : String :=
  pyReplace a.vector "[INFERENCE]"
    (replace_with (pyFormat a.payload_tpl a.queryable a.offset (toString mid)) "=" op)

/-- The `while lo <= hi` bisection loop shared verbatim (up to the comparator
string) by `_char_binary_gt` and `_char_between`: probe the midpoint
`mid = (lo + hi) // 2` (Python floor division, `Int.fdiv`), moving `lo` past
a true midpoint and `hi` below a false one.  Evaluated with fuel at least the
size of the interval the loop runs to completion; the returned list records
every expression handed to `inject_expression`, in order. -/
def bisectLoop (ctx : OracleCtx) (inject : String → Response) (op : String)
    (a : CharProbeArgs) : Nat → Int → Int → Int × List String
  | 0, lo, _ => (lo, [])
  | fuel + 1, lo, hi =>
    if lo ≤ hi then
      let mid := Int.fdiv (lo + hi) 2
      let expr := cmpProbeExpr op a mid
      if probeOf ctx inject expr then
        let (r, es) := bisectLoop ctx inject op a fuel (mid + 1) hi
        (r, expr :: es)
      else
        let (r, es) := bisectLoop ctx inject op a fuel lo (mid - 1)
        (r, expr :: es)
    else (lo, [])

/-- Fuel sufficient for a bisection over `[min_ord, max_ord]`: the interval
size (each iteration strictly shrinks the interval). -/
def bisectFuel (a : CharProbeArgs) : Nat :=
  (a.max_ord + 1 - a.min_ord).toNat + 1

/-- Embedding of `GhauriExtractor._char_binary_gt`: binary search with the
comparator `>`; afterwards `chr(lo - 1)` if `lo` moved past `min_ord`,
otherwise the empty string.  Also returns the probe expressions sent. -/
def char_binary_gt (ctx : OracleCtx) (inject : String → Response)
    (a : CharProbeArgs) : String × List String :=
  let (lo, es) := bisectLoop ctx inject ">" a (bisectFuel a) a.min_ord a.max_ord
  (if lo > a.min_ord then String.singleton (Char.ofNat (lo - 1).toNat) else "", es)

/-- Embedding of `GhauriExtractor._char_between`: identical to
`_char_binary_gt` except that the comparator is replaced by
`" NOT BETWEEN 0 AND "`. -/
def char_between (ctx : OracleCtx) (inject : String → Response)
    (a : CharProbeArgs) : String × List String :=
  let (lo, es) := bisectLoop ctx inject " NOT BETWEEN 0 AND " a (bisectFuel a) a.min_ord a.max_ord
  (if lo > a.min_ord then String.singleton (Char.ofNat (lo - 1).toNat) else "", es)

/-- Rendered wire expression for one set-membership probe
(`char=f"({in_list})"`, comparator replaced by `" IN "`). -/
def inProbeExpr (a : CharProbeArgs) (chunk : List Int) : String :=
  pyReplace a.vector "[INFERENCE]"
    (replace_with
      (pyFormat a.payload_tpl a.queryable a.offset
        ("(" ++ String.intercalate "," (chunk.map toString) ++ ")"))
      "=" " IN ")

/-- Bisection over a candidate list (`_char_in` loop): while more than one
candidate remains, membership-test the first half (`chunk_size =
max(1, len(candidates) // 2)`) and keep the half the oracle selects. -/
def charInLoop (ctx : OracleCtx) (inject : String → Response)
    (a : CharProbeArgs) : Nat → List Int → List Int × List String
  | 0, cands => (cands, [])
  | fuel + 1, cands =>
    if cands.length > 1 then
      let chunkSize := max 1 (cands.length / 2)
      let chunk := cands.take chunkSize
      let expr := inProbeExpr a chunk
      if probeOf ctx inject expr then
        let (r, es) := charInLoop ctx inject a fuel chunk
        (r, expr :: es)
      else
        let (r, es) := charInLoop ctx inject a fuel (cands.drop chunkSize)
        (r, expr :: es)
    else (cands, [])

/-- Embedding of `GhauriExtractor._char_in`: candidates are
`range(min_ord, max_ord + 1)`; at the end `chr(candidates[0])` if any
candidate remains, the empty string otherwise. -/
def char_in (ctx : OracleCtx) (inject : String → Response)
    (a : CharProbeArgs) : String × List String :=
  let cands := (List.range ((a.max_ord + 1 - a.min_ord).toNat)).map
    (fun k => a.min_ord + (k : Int))
  let (finalCands, es) := charInLoop ctx inject a (cands.length + 1) cands
  (match finalCands with
   | c :: _ => String.singleton (Char.ofNat c.toNat)
   | [] => "", es)

/-- Default heuristic alphabet of `_char_linear` (`char_list` keyword
default). -/
def defaultCharList : String :=
  " ._-@1234567890abcdefghijklmnopqrstuvwxyzABCDEFGHIJKLMNOPQRSTUVWXYZ"

/-- Rendered wire expression for one equality probe of `_char_linear`
(`cond = payload_tpl.format(query=queryable, position=offset,
char=ord(ch))`, no comparator replacement). -/
def linearProbeExpr (a : CharProbeArgs) (ch : Char) : String :=
  pyReplace a.vector "[INFERENCE]"
    (pyFormat a.payload_tpl a.queryable a.offset (toString ch.toNat))

/-- Loop of `_char_linear` over a character list: return the first character
whose equality probe the oracle classifies as true, recording the
expressions sent. -/
def charLinearLoop (ctx : OracleCtx) (inject : String → Response)
    (a : CharProbeArgs) : List Char → String × List String
  | [] => ("", [])
  | ch :: rest =>
    let expr := linearProbeExpr a ch
    if probeOf ctx inject expr then
      (String.singleton ch, [expr])
    else
      let (r, es) := charLinearLoop ctx inject a rest
      (r, expr :: es)

/-- Embedding of `GhauriExtractor._char_linear`: iterate `char_list` and
return the first matching character; when the list is exhausted return the
empty string — the method body ends with `return ""` and contains no
fallback scan. -/
def char_linear (ctx : OracleCtx) (inject : String → Response)
    (a : CharProbeArgs) (charList : String) : String × List String :=
  charLinearLoop ctx inject a charList.data

/-! ## Length discovery (`GhauriExtractor._get_output_length`) -/

/-- Oracle context with the `vector_type or "boolean"` defaulting that
`fetch_characters` applies before length discovery and character
extraction. -/
def ctxDefaulted (ctx : OracleCtx) : OracleCtx :=
  { ctx with vector_type := some (ctx.vector_type.getD VectorType.boolean) }

/-- Rendered number-of-characters probe
(`cond = noc_tpl.format(query=q, char=pos)` followed by both placeholder
substitutions). -/
def nocProbeExpr (vector : String) (timesec : ℚ) (tpl q : String) (pos : Nat) : String :=
  pyReplace (pyReplace vector "[INFERENCE]" (pyFormatQC tpl q (toString pos)))
    "[SLEEPTIME]" (toString timesec)

/-- Innermost loop of phase 1: `for pos in range(1, 11)`, stopping at the
first vulnerable probe.  Returns the found position and the transport-call
count. -/
def nocPosLoop (ctx : OracleCtx) (inject : String → Response)
    (vector tpl q : String) : List Nat → Option Nat × Nat
  | [] => (none, 0)
  | pos :: rest =>
    if probeOf ctx inject (nocProbeExpr vector ctx.timesec tpl q pos) then
      (some pos, 1)
    else
      let (r, n) := nocPosLoop ctx inject vector tpl q rest
      (r, n + 1)

/-- Middle loop of phase 1 over the candidate queries. -/
def nocQueryLoop (ctx : OracleCtx) (inject : String → Response)
    (vector tpl : String) : List String → Option (Nat × String) × Nat
  | [] => (none, 0)
  | q :: rest =>
    match nocPosLoop ctx inject vector tpl q ((List.range 10).map (· + 1)) with
    | (some pos, n) => (some (pos, q), n)
    | (none, n) =>
      let (r, m) := nocQueryLoop ctx inject vector tpl rest
      (r, n + m)

/-- Outer loop of phase 1 over the number-of-characters templates. -/
def nocTplLoop (ctx : OracleCtx) (inject : String → Response)
    (vector : String) (payloads : List String) : List String → Option (Nat × String) × Nat
  | [] => (none, 0)
  | tpl :: rest =>
    match nocQueryLoop ctx inject vector tpl payloads with
    | (some hit, n) => (some hit, n)
    | (none, n) =>
      let (r, m) := nocTplLoop ctx inject vector payloads rest
      (r, n + m)

/-- Python `str.isdigit` on ASCII digit strings (false on the empty
string). -/
def isPyDigit (s : String) : Bool :=
  s ≠ "" && s.data.all Char.isDigit

/-- Python `int(...)` on a decimal digit string (callers guard with
`isdigit`). -/
def pyParseNatAux : List Char → Nat → Nat
  | [], acc => acc
  | c :: rest, acc => pyParseNatAux rest (acc * 10 + (c.toNat - 48))

/-- Decimal value of a digit string. -/
def pyParseNat (s : String) : Nat :=
  pyParseNatAux s.data 0

/-- Phase 2 digit run: `while pos <= noc + 1`, extracting one digit per
position via `_char_binary_gt` over ordinals `[48, 57]` and stopping at the
first empty result.  Returns the digits and the transport-call count. -/
def digitRun (ctx : OracleCtx) (inject : String → Response)
    (vector q tpl : String) : Nat → Nat → String × Nat
  | 0, _ => ("", 0)
  | fuel + 1, pos =>
    let (ch, es) := char_binary_gt ctx inject ⟨vector, pos, q, tpl, 48, 57⟩
    if ch = "" then ("", es.length)
    else
      let (s, n) := digitRun ctx inject vector q tpl fuel (pos + 1)
      (ch ++ s, es.length + n)

/-- Phase 2 inner loop over the candidate queries; only the query that fired
in phase 1 is used, and the digit string accumulates across iterations
(`length_str` is initialised once, before both loops). -/
def lengthQueryLoop (ctx : OracleCtx) (inject : String → Response)
    (vector tpl workingQ : String) (noc : Nat) :
    String → List String → Option Nat × String × Nat
  | acc, [] => (none, acc, 0)
  | acc, q :: rest =>
    if q = workingQ then
      let (s, n) := digitRun ctx inject vector q tpl (noc + 1) 1
      let acc2 := acc ++ s
      if isPyDigit acc2 then (some (pyParseNat acc2), acc2, n)
      else
        let (r, acc3, m) := lengthQueryLoop ctx inject vector tpl workingQ noc acc2 rest
        (r, acc3, n + m)
    else lengthQueryLoop ctx inject vector tpl workingQ noc acc rest

/-- Phase 2 outer loop over the length templates. -/
def lengthTplLoop (ctx : OracleCtx) (inject : String → Response)
    (vector workingQ : String) (noc : Nat) (payloads : List String) :
    String → List String → Option Nat × Nat
  | _, [] => (none, 0)
  | acc, tpl :: rest =>
    match lengthQueryLoop ctx inject vector tpl workingQ noc acc payloads with
    | (some L, _, n) => (some L, n)
    | (none, acc2, n) =>
      let (r, m) := lengthTplLoop ctx inject vector workingQ noc payloads acc2 rest
      (r, n + m)

/-- Embedding of `GhauriExtractor._get_output_length`.  The two template
tables are passed in as lists of template strings: `extract.py` reads them
from `NUMBER_OF_CHARACTERS_PAYLOADS[backend]` and from `LENGTH_PAYLOADS`
(imported from `ghauri.common.payloads` but not defined in the sources —
modelled from the spec as the backend's length-probe templates, §4.2).
Returns `(length, transport calls)`; a failed phase yields length 0. -/
def get_output_length (ctx : OracleCtx) (inject : String → Response)
    (vector : String) (payloads nocTemplates lengthTemplates : List String) :
    Nat × Nat :=
  match nocTplLoop ctx inject vector payloads nocTemplates with
  | (none, n) => (0, n)
  | (some (noc, workingQ), n) =>
    match lengthTplLoop ctx inject vector workingQ noc payloads "" lengthTemplates with
    | (some L, m) => (L, n + m)
    | (none, m) => (0, n + m)

/-! ## Main entry point (`GhauriExtractor.fetch_characters`) -/

/-- Python exceptions that escape the embedded functions. -/
inductive PyErr where
  | typeError (msg : String)
  | runtimeError (msg : String)
deriving DecidableEq, Repr

/-- The `CharResult` named tuple of `core/extract.py`. -/
structure CharResult where
  success : Bool
  value : String
  strategy : Option SearchStrategy
  error : String
  resumed : Bool
deriving DecidableEq, Repr

/-- `CharResult()` with all defaults. -/
def CharResult.default : CharResult :=
  ⟨false, "", none, "", false⟩

/-- Row of the session `storage` table (`type` key implicit): the persisted
partial value and the expected total length. -/
structure StorageRow where
  value : String
  length : Nat
deriving DecidableEq, Repr

/-- An `INSERT OR REPLACE INTO storage` write performed during extraction. -/
structure UpsertRow where
  dtype : String
  value : String
  length : Nat
deriving DecidableEq, Repr

/-- Configuration slice of `conf` read by `fetch_characters`:
`conf.vectors` is a string (default `""` in `common/config.py`, assigned
nowhere in the sources), plus `fresh_queries`, `threads` and
`fetch_using`. -/
structure FetchConf where
  vectors : String
  fresh_queries : Bool
  threads : Option Nat
  fetch_using : Option String
deriving Repr

/-- Environment of a `fetch_characters` call: the transport, the session
storage lookup (`session.fetchall` on the `storage` table, keyed by the dump
type) and the template tables. -/
structure FetchEnv where
  inject : String → Response
  storage : String → List StorageRow
  nocTemplates : List String
  lengthTemplates : List String

/-- Result of a `fetch_characters` run: the returned `CharResult`, the
number of transport calls performed, the final value of `conf.threads` and
the session writes, in order. -/
structure FetchOutcome where
  result : CharResult
  injectCount : Nat
  threadsOut : Option Nat
  upserts : List UpsertRow
deriving Repr

/-- Embedding of `GhauriExtractor._try_error_based`.  With `conf.vectors` a
string (its type and default in `common/config.py`; no code assigns it), the
guard `"error_vector" not in conf.vectors` is a substring test; when it
fails the method returns `CharResult()` at once, and when it succeeds the
very next line `conf.vectors["error_vector"]` indexes a `str` with a `str`
key, which raises `TypeError`, so the rest of the body (payload loop, regex
scan, session upsert) is unreachable. -/
def tryErrorBased (conf : FetchConf) : Except PyErr (CharResult × Nat) :=
  if ¬ containsSub conf.vectors "error_vector" then
    Except.ok (CharResult.default, 0)
  else
    Except.error (PyErr.typeError "string indices must be integers")

/-- Probe arguments used by the extraction loop of `fetch_characters`: both
`queryable` and `payload_tpl` are `payloads[0]`, over ordinals `[32, 127]`. -/
def charArgsAt (vector q : String) (pos : Nat) : CharProbeArgs :=
  ⟨vector, pos, q, q, 32, 127⟩

/-- One iteration body of the extraction loop: dispatch on the selected
strategy (`match probe.strategy`), returning the character and the number of
transport calls. -/
def extractCharAt (ctxD : OracleCtx) (inject : String → Response)
    (strategy : SearchStrategy) (vector q : String) (pos : Nat) : String × Nat :=
  match strategy with
  | SearchStrategy.binary_gt =>
    let (c, es) := char_binary_gt ctxD inject (charArgsAt vector q pos)
    (c, es.length)
  | SearchStrategy.between =>
    let (c, es) := char_between ctxD inject (charArgsAt vector q pos)
    (c, es.length)
  | SearchStrategy.in_op =>
    let (c, es) := char_in ctxD inject (charArgsAt vector q pos)
    (c, es.length)
  | SearchStrategy.linear_eq =>
    let (c, es) := char_linear ctxD inject (charArgsAt vector q pos) defaultCharList
    (c, es.length)

/-- The `for pos in range(start_pos, length + 1)` extraction loop: extract a
character, break on failure, otherwise append it and (for a dump key without
`fresh_queries`) upsert the partial value with the expected length. -/
def charLoop (ctxD : OracleCtx) (inject : String → Response)
    (strategy : SearchStrategy) (vector q : String) (dump_type : Option String)
    (fresh_queries : Bool) (length : Nat) :
    Nat → Nat → String → String × Nat × List UpsertRow
  | 0, _, chars => (chars, 0, [])
  | fuel + 1, pos, chars =>
    if pos ≤ length then
      let (ch, n) := extractCharAt ctxD inject strategy vector q pos
      if ch = "" then (chars, n, [])
      else
        let chars2 := chars ++ ch
        let ups : List UpsertRow :=
          match dump_type, fresh_queries with
          | some dt, false => [⟨dt, chars2, length⟩]
          | _, _ => []
        let (r, m, us) := charLoop ctxD inject strategy vector q dump_type
          fresh_queries length fuel (pos + 1) chars2
        (r, n + m, ups ++ us)
    else (chars, 0, [])

/-- Embedding of `GhauriExtractor.fetch_characters`: resume check on the
session storage, error-based fast path, length discovery, operator probe,
partial resume, thread-disabling guard and the per-position extraction loop.
The `RuntimeError` of `probe_operator` propagates (`Except.error`).  Callers
pass a non-empty `payloads` list (`payloads[0]` is its head). -/
def fetch_characters (conf : FetchConf) (env : FetchEnv) (ctx : OracleCtx)
    (vector : String) (payloads : List String) (dump_type : Option String) :
    Except PyErr FetchOutcome :=
  let resumeHit : Option StorageRow :=
    match dump_type, conf.fresh_queries with
    | some dt, false =>
      match env.storage dt with
      | row :: _ => if row.value.length = row.length then some row else none
      | [] => none
    | _, _ => none
  match resumeHit with
  | some row => Except.ok ⟨⟨true, row.value, none, "", true⟩, 0, conf.threads, []⟩
  | none =>
    match tryErrorBased conf with
    | Except.error e => Except.error e
    | Except.ok (errRes, n1) =>
      if errRes.success then
        Except.ok ⟨errRes, n1, conf.threads, []⟩
      else
        let (length, n2) := get_output_length (ctxDefaulted ctx) env.inject vector
          payloads env.nocTemplates env.lengthTemplates
        if length = 0 then
          Except.ok ⟨⟨false, "", none, "length undetermined", false⟩, n1 + n2,
            conf.threads, []⟩
        else
          match probe_operator ctx env.inject vector ctx.timesec conf.fetch_using with
          | (Except.error msg, _) => Except.error (PyErr.runtimeError msg)
          | (Except.ok probe, n3) =>
            let (chars0, start0) :=
              match dump_type, conf.fresh_queries with
              | some dt, false =>
                match env.storage dt with
                | row :: _ => (row.value, row.value.length + 1)
                | [] => ("", 1)
              | _, _ => ("", 1)
            let threads2 :=
              if optNatTruthy conf.threads ∧ ctx.vector_type = some VectorType.boolean
              then none else conf.threads
            let q := payloads.headD ""
            let (chars, n4, ups) := charLoop (ctxDefaulted ctx) env.inject
              probe.strategy vector q dump_type conf.fresh_queries length
              (length + 1 - start0) start0 chars0
            let success := chars.length = length
            Except.ok ⟨⟨success, chars, some probe.strategy,
              if success then "" else "incomplete", false⟩, n1 + n2 + n3 + n4,
              threads2, ups⟩

/-! ## Tamper chain (`tampers/base.py`, `tampers/loader.py`) -/

/-- Tamper stages (`TamperStage` enum of `tampers/base.py`). -/
inductive TamperStage where
  | detection
  | injection
  | extraction
deriving DecidableEq, Repr

/-- Result of one tamper application (`TamperResult` of `tampers/base.py`):
payload, names of the applied tampers and a confidence in `[0, 1]`. -/
structure TamperResult where
  payload : String
  applied : List String
  confidence : ℚ
deriving DecidableEq, Repr

/-- A tamper class: the class-level attributes of a `BaseTamper` subclass
together with its `tamper` method (`(payload, context) → Optional result`,
context modelled as an association list). -/
structure TamperClass where
  name : String
  stage : TamperStage
  priority : Int
  applies_to : List String
  tamperFn : String → List (String × String) → Option TamperResult

/-- An instantiated tamper (`tamper_cls()` in `get_tamper_chain`): the chain
elements are instances, not classes. -/
structure TamperInstance where
  cls : TamperClass

/-- Instantiation of a tamper class. -/
def instantiate (t : TamperClass) : TamperInstance := ⟨t⟩

/-- Calling a tamper instance as a function: `BaseTamper` (and every tamper
under `tampers/`) defines no `__call__`, so Python raises `TypeError`. -/
def callInstance (_t : TamperInstance) : Except PyErr TamperInstance :=
  Except.error (PyErr.typeError "object is not callable")

/-- Insertion preserving the sort by ascending `priority`. -/
def insertByPriority (t : TamperClass) : List TamperClass → List TamperClass
  | [] => [t]
  | u :: rest =>
    if u.priority ≤ t.priority then u :: insertByPriority t rest
    else t :: u :: rest

/-- Embedding of `load_all_tampers` modulo module discovery: the dynamically
discovered tamper classes are a parameter, the sort by ascending `priority`
(`loaded.sort(key=lambda t: t.priority)`) is kept. -/
def load_all_tampers (discovered : List TamperClass) : List TamperClass :=
  discovered.foldr insertByPriority []

/-- Last-wins name lookup (`name_to_cls = {t.name: t for t in _ALL_TAMPERS}`:
later entries overwrite earlier ones). -/
def lookupTamperName (allT : List TamperClass) (name : String) : Option TamperClass :=
  allT.reverse.find? (fun t => t.name = name)

/-- User-selected branch of `get_tamper_chain`: walk the requested names,
expanding `"all"` (and stopping there), keeping named tampers whose stage
matches. -/
def chainFromSelected (allT : List TamperClass) (stage : TamperStage) :
    List String → List TamperInstance
  | [] => []
  | name :: rest =>
    if (pyLower name) = "all" then
      (allT.filter (fun t => t.stage = stage)).map instantiate
    else
      match lookupTamperName allT name with
      | some t =>
        if t.stage = stage then
          instantiate t :: chainFromSelected allT stage rest
        else chainFromSelected allT stage rest
      | none => chainFromSelected allT stage rest

/-- Embedding of `get_tamper_chain` over the loaded tamper classes: the
user-selected names take precedence (an empty or missing selection falls
back to filtering by stage and, when a technique type is given, by
`applies_to`). -/
def get_tamper_chain (stage : TamperStage) (technique_type : Option String)
    (user_selected : Option (List String)) (allT : List TamperClass) :
    List TamperInstance :=
  match user_selected with
  | some (n :: ns) => chainFromSelected allT stage (n :: ns)
  | _ =>
    (allT.filter (fun t =>
      t.stage = stage &&
        (if optStrTruthy technique_type then
          t.applies_to.contains ((technique_type).getD "")
        else true))).map instantiate

/-- The `for tamper in chain` loop of `apply_tamper_chain`: each element is
first called as a function (`tamper()`), then its `tamper` method is applied;
a `None` result skips the tamper, otherwise the payload is threaded through,
`applied` entries are concatenated and the confidence is multiplied. -/
def applyTamperLoop (ctxd : List (String × String)) :
    List TamperInstance → String → List String → ℚ → Except PyErr TamperResult
  | [], current, applied, conf => Except.ok ⟨current, applied, conf⟩
  | t :: rest, current, applied, conf =>
    match callInstance t with
    | Except.error e => Except.error e
    | Except.ok t2 =>
      match t2.cls.tamperFn current ctxd with
      | none => applyTamperLoop ctxd rest current applied conf
      | some r =>
        applyTamperLoop ctxd rest r.payload (applied ++ r.applied)
          (conf * r.confidence)

/-- Embedding of `apply_tamper_chain`: build the chain, then run the
application loop starting from the raw payload, an empty `applied` list and
confidence `1.0`. -/
def apply_tamper_chain (payload : String) (stage : TamperStage)
    (technique_type : Option String) (user_selected : Option (List String))
    (allT : List TamperClass) (ctxd : List (String × String)) :
    Except PyErr TamperResult :=
  applyTamperLoop ctxd (get_tamper_chain stage technique_type user_selected allT)
    payload [] 1

/-- Hexadecimal digits, upper case (Python format spec `X`). -/
def hexDigitUpper (n : Nat) : Char :=
  (("0123456789ABCDEF").data).getD n "0".front

/-- Python `f"%\x7bord(c):02X\x7d"`: percent followed by the ordinal in
upper-case hex, zero-padded to two digits. -/
def percentEncodeChar (c : Char) : String :=
  let ds := [hexDigitUpper (c.toNat / 16 % 16), hexDigitUpper (c.toNat % 16)]
  let hi := c.toNat / 256
  "%" ++ (if hi > 0 then String.mk ((Nat.toDigits 16 hi).map Char.toUpper) else "") ++ String.mk ds

/-- The `CharEncode` tamper of `tampers/charencode.py`: stage INJECTION,
priority 10; URL-encodes every character, refusing blank payloads. -/
def charencodeClass : TamperClass :=
  ⟨"charencode", TamperStage.injection, 10, ["boolean", "time", "error"],
   fun payload _ =>
     if payload.trim = "" then none
     else some ⟨String.join (payload.data.map percentEncodeChar),
       ["charencode"], 88/100⟩⟩

/-! ## Boolean confirmation (`core/tests.py`, `confirm_boolean_injection`) -/

/-- Environment of a confirmation run: the transport and the boolean
response check for a `(attack_true, attack_false)` pair.  The check is
modelled from the spec (§4.1): `check_boolean_responses` is imported from
`ghauri.common.utils` but is absent from the sources; baseline, user
criteria and `text_only` are fixed context. -/
structure ConfirmEnv where
  inject : String → Response
  checkBool : Response → Response → CheckResult

/-- One recorded observation (`results` entries: payload and expected truth
value; the attack response is omitted). -/
structure TestEntry where
  payload : String
  expected : Bool
deriving DecidableEq, Repr

/-- The five algebraic-identity probe pairs of `confirm_boolean_injection`,
in source order. -/
def boolTestCases : List (String × String) :=
  [("2*3*8=6*8", "2*3*8=6*9"),
   ("3*2>(1*5)", "3*3<(2*4)"),
   ("3*2*0>=0", "3*3*9<(2*4)"),
   ("5*4=20", "5*4=21"),
   ("3*2*1=6", "3*2*0=6")]

/-- Python `None == n` / `int == n` comparison of an optional counter with a
content length. -/
def optEqNat (o : Option Nat) (n : Nat) : Bool :=
  match o with
  | some m => m = n
  | none => false

/-- The `for case in test_cases` loop: render and send both probes, record
two observations when the pair is classified vulnerable, and break early when
the content-length false-positive filter fires
(`check.case == "Content Length"`, the filter enabled, and either counter
disagreeing with the observed content length). -/
def confirmLoop (env : ConfirmEnv) (vector : String) (ctOn : Bool)
    (ctt ctf : Option Nat) : List (String × String) → List TestEntry
  | [] => []
  | (t, f) :: rest =>
    let te := pyReplace vector "[RANDNUM]=[RANDNUM]" t
    let fe := pyReplace vector "[RANDNUM]=[RANDNUM]" f
    let atk := env.inject te
    let afk := env.inject fe
    let check := env.checkBool atk afk
    let entries : List TestEntry :=
      if check.vulnerable then [⟨te, true⟩, ⟨fe, false⟩] else []
    if check.case = "Content Length" ∧ ctOn = true ∧
        ¬(optEqNat ctt atk.content_length = true ∧ optEqNat ctf afk.content_length = true) then
      entries
    else
      entries ++ confirmLoop env vector ctOn ctt ctf rest

/-- Return value of `confirm_boolean_injection` (`BoolConfirm` named
tuple). -/
structure ConfirmOutcome where
  vulnerable : Bool
  tests : List TestEntry
deriving Repr

/-- Embedding of `confirm_boolean_injection`: with an observed base latency
above 8 seconds only the first three pairs are used; the success rate is
`len(results) / (len(test_cases) * 2)` and the verdict requires rate ≥ 0.8,
or base latency > 8 and rate ≥ 0.7. -/
def confirm_boolean_injection (env : ConfirmEnv) (vector : String)
    (response_time : ℚ) (ctOn : Bool) (ctt ctf : Option Nat) : ConfirmOutcome :=
  let cases := if response_time > 8 then boolTestCases.take 3 else boolTestCases
  let results := confirmLoop env vector ctOn ctt ctf cases
  let rate : ℚ :=
    if cases.length = 0 then 0 else (results.length : ℚ) / (cases.length * 2)
  let isVulnerable :=
    if rate ≥ 8/10 then true
    else if response_time > 8 ∧ rate ≥ 7/10 then true
    else false
  ⟨isVulnerable, results⟩

/-! ## DBMS fingerprinting (`dbms/fingerprint.py`) -/

/-- The `FingerprintResult` dataclass. -/
structure FingerprintResult where
  dbms : Option String
  confidence : ℚ
  method : String
deriving DecidableEq, Repr

/-- Embedding of `FingerPrintDBMS.check_mysql` over the boolean pair oracle
`cb` (the outcome of `_check_boolean(true_expr, false_expr)`, whose body
uses the absent `check_boolean_responses` helper and is therefore abstract):
heuristic pair, then unless `heuristic_only` the confirmation pair, raising
the confidence from 0.85 to 0.98 only when the confirmation passes. -/
def check_mysql (cb : String → String → Bool) (heuristic_only : Bool) :
    FingerprintResult :=
  if cb "(SELECT QUARTER(NULL)) IS NULL" "(SELECT 0x47776a68)=\x27qSBB\x27" then
    if heuristic_only then ⟨some "MySQL", 85/100, "heuristic"⟩
    else if cb "QUARTER(NULL) IS NULL" "1=2" then
      ⟨some "MySQL", 98/100, "confirmation"⟩
    else ⟨some "MySQL", 85/100, "heuristic"⟩
  else ⟨none, 0, "heuristic"⟩

/-- Embedding of `FingerPrintDBMS.check_postgresql` (heuristic confidence
0.82, confirmation 0.97). -/
def check_postgresql (cb : String → String → Bool) (heuristic_only : Bool) :
    FingerprintResult :=
  if cb "CONVERT_TO((CHR(115)||CHR(120)||CHR(115)||CHR(101)), QUOTE_IDENT(NULL)) IS NULL"
      "(SELECT 0x414141)=\x27BBB\x27" then
    if heuristic_only then ⟨some "PostgreSQL", 82/100, "heuristic"⟩
    else if cb "COALESCE(8009, NULL)=8009" "1=2" then
      ⟨some "PostgreSQL", 97/100, "confirmation"⟩
    else ⟨some "PostgreSQL", 82/100, "heuristic"⟩
  else ⟨none, 0, "heuristic"⟩

/-- Embedding of `FingerPrintDBMS.check_oracle` (heuristic confidence 0.84,
confirmation 0.96). -/
def check_oracle (cb : String → String → Bool) (heuristic_only : Bool) :
    FingerprintResult :=
  if cb "(SELECT INSTR2(NULL,NULL) FROM DUAL) IS NULL"
      "(SELECT CHR(112)||CHR(116)||CHR(90)||CHR(78) FROM DUAL)=\x27SOTQ\x27" then
    if heuristic_only then ⟨some "Oracle", 84/100, "heuristic"⟩
    else if cb "NVL(RAWTOHEX(5984),5984)=RAWTOHEX(5984)" "1=2" then
      ⟨some "Oracle", 96/100, "confirmation"⟩
    else ⟨some "Oracle", 84/100, "heuristic"⟩
  else ⟨none, 0, "heuristic"⟩

/-- One step of `FingerPrintDBMS.fingerprint`: run the heuristic pass of a
candidate; on a hit with confidence at least 0.80, run the full pass and
return its result when it names a DBMS, otherwise return the heuristic
result. -/
def fingerprintStep (check : Bool → FingerprintResult) : Option FingerprintResult :=
  let result := check true
  if result.dbms.isSome then
    if result.confidence ≥ 80/100 then
      let c := check false
      if c.dbms.isSome then some c else some result
    else some result
  else none

/-- Embedding of `FingerPrintDBMS.fingerprint`: candidates in priority order
MySQL, PostgreSQL, Oracle; the first candidate whose heuristic names a DBMS
decides the outcome; if none does, the unknown result is returned. -/
def fingerprint (cb : String → String → Bool) : FingerprintResult :=
  match fingerprintStep (check_mysql cb) with
  | some r => r
  | none =>
    match fingerprintStep (check_postgresql cb) with
    | some r => r
    | none =>
      match fingerprintStep (check_oracle cb) with
      | some r => r
      | none => ⟨none, 0, "none"⟩

/-! ## Concrete fixtures used by closed theorems and witnesses -/

/-- A slow response: 10 seconds, well above any threshold used below. -/
def rSlow : Response := ⟨200, 10, 100, "", "", false⟩

/-- A fast response: zero response time. -/
def rFast : Response := ⟨200, 0, 100, "", "", false⟩

/-- Oracle context for a time-based vector with the default 5-second
threshold. -/
def ctxT : OracleCtx :=
  ⟨some VectorType.time, none, rFast, none, fun _ _ _ _ => ⟨false, ""⟩, 5⟩

/-- Transport stub that always answers slowly (every probe reads true under
the time oracle). -/
def injSlow : String → Response := fun _ => rSlow

/-- Constant-truth inference of each strategy, as listed in `probe_operator`. -/
def inferenceOf : SearchStrategy → String
  | SearchStrategy.binary_gt => "6590>6420"
  | SearchStrategy.between => "6590 NOT BETWEEN 0 AND 6420"
  | SearchStrategy.in_op => "(SELECT 45) IN (10,45,60)"
  | SearchStrategy.linear_eq => "09845=9845"

/-- Transport stub for the linear-scan counterexample: only the equality
probe for ordinal 33 (the character `!`) answers slowly. -/
def injBang : String → Response := fun e => if e = "C=33" then rSlow else rFast

/-- Probe arguments for the linear-scan counterexample. -/
def aLin : CharProbeArgs := ⟨"[INFERENCE]", 1, "q", "C=\x7bchar\x7d", 32, 127⟩

/-- Environment in which every probe pair is classified vulnerable. -/
def envAllVuln : ConfirmEnv := ⟨injSlow, fun _ _ => ⟨true, ""⟩⟩

/-- Boolean oracle context for the concrete extraction runs: the
`check_boolean_responses` model classifies an attack as vulnerable when its
status code is 201. -/
def ctxB : OracleCtx :=
  ⟨some VectorType.boolean, some rFast, rFast, none,
    fun _ attack _ _ => ⟨attack.status_code == 201, ""⟩, 5⟩

/-- Status-201 response driving the boolean oracle above. -/
def slowB : Response := ⟨201, 0, 100, "", "", false⟩

/-- Transport stub for the boolean extraction run: the length probe for one
character, the digit probes placing the length at `"1"` and the BINARY_GT
operator probe answer with status 201. -/
def injB : String → Response := fun e =>
  if e = "NOC=1" ∨ e = "L1>48" ∨ e = "L1>49" ∨ e = "6590>6420" then slowB else rFast

/-- Transport stub for the time extraction run: the same probes answer
slowly. -/
def injT8 : String → Response := fun e =>
  if e = "NOC=1" ∨ e = "L1>48" ∨ e = "L1>49" ∨ e = "6590>6420" then rSlow else rFast

/-- Configuration with five threads configured and no dump key handling. -/
def confThreads : FetchConf := ⟨"", false, some 5, none⟩

/-- Environment of the boolean extraction run (session storage empty, one
number-of-characters template, one length template). -/
def envB : FetchEnv :=
  ⟨injB, fun _ => [], ["NOC=\x7bchar\x7d"], ["L\x7bposition\x7d=\x7bchar\x7d"]⟩

/-- Environment of the time extraction run. -/
def envT8 : FetchEnv :=
  ⟨injT8, fun _ => [], ["NOC=\x7bchar\x7d"], ["L\x7bposition\x7d=\x7bchar\x7d"]⟩

/-- Pair oracle under which only the MySQL heuristic expression reads true:
the heuristic pair passes, the confirmation pair fails. -/
def cbHeurOnly : String → String → Bool :=
  fun t _ => decide (t = "(SELECT QUARTER(NULL)) IS NULL")

/-! ## Helper lemmas -/

/-- Midpoint bounds for the floor division used by the bisection loops. -/
theorem fdiv_two_bounds {lo hi : Int} (h : lo ≤ hi) :
    lo ≤ Int.fdiv (lo + hi) 2 ∧ Int.fdiv (lo + hi) 2 ≤ hi := by
  rw [Int.fdiv_eq_ediv (lo + hi) (by norm_num)]
  have h1 := Int.ediv_add_emod (lo + hi) 2
  have h2 := Int.emod_nonneg (lo + hi) (show (2 : Int) ≠ 0 by norm_num)
  have h3 := Int.emod_lt_of_pos (lo + hi) (show (0 : Int) < 2 by norm_num)
  omega

/-- Main bisection invariant: when the probe oracle over the current
interval is the monotone predicate `mid < c` with `lo ≤ c ≤ hi + 1`, and the
fuel covers the interval, the loop terminates with `lo = c`. -/
theorem bisectLoop_fst (ctx : OracleCtx) (inject : String → Response)
    (op : String) (a : CharProbeArgs) (c : Int) :
    ∀ fuel lo hi, lo ≤ c → c ≤ hi + 1 → (hi + 1 - lo).toNat ≤ fuel →
      (∀ mid, lo ≤ mid → mid ≤ hi →
        probeOf ctx inject (cmpProbeExpr op a mid) = decide (mid < c)) →
      (bisectLoop ctx inject op a fuel lo hi).1 = c := by
  intro fuel
  induction fuel with
  | zero =>
    intro lo hi h1 h2 h3 _
    simp only [bisectLoop]
    omega
  | succ fuel ih =>
    intro lo hi h1 h2 h3 hor
    by_cases hlh : lo ≤ hi
    · have hmid := fdiv_two_bounds hlh
      have hob := hor (Int.fdiv (lo + hi) 2) hmid.1 hmid.2
      cases hpb : probeOf ctx inject (cmpProbeExpr op a (Int.fdiv (lo + hi) 2)) with
      | true =>
        have hc : Int.fdiv (lo + hi) 2 < c := by
          rw [hpb] at hob
          exact of_decide_eq_true hob.symm
        have hrec := ih (Int.fdiv (lo + hi) 2 + 1) hi (by omega) h2 (by omega)
          (fun m hm1 hm2 => hor m (by omega) hm2)
        rcases hres : bisectLoop ctx inject op a fuel (Int.fdiv (lo + hi) 2 + 1) hi
          with ⟨r, es⟩
        rw [hres] at hrec
        simp only [bisectLoop, if_pos hlh, hpb, hres]
        exact hrec
      | false =>
        have hc : c ≤ Int.fdiv (lo + hi) 2 := by
          rw [hpb] at hob
          have := of_decide_eq_false hob.symm
          omega
        have hrec := ih lo (Int.fdiv (lo + hi) 2 - 1) h1 (by omega) (by omega)
          (fun m hm1 hm2 => hor m hm1 (by omega))
        rcases hres : bisectLoop ctx inject op a fuel lo (Int.fdiv (lo + hi) 2 - 1)
          with ⟨r, es⟩
        rw [hres] at hrec
        simp only [bisectLoop, if_pos hlh, hpb, hres]
        exact hrec
    · simp only [bisectLoop, if_neg hlh]
      omega

/-! ## Claim theorems -/

/-- C1.  The per-character extraction routine `_char_binary_gt` renders its
wire expression with `expr = vector.replace("[INFERENCE]", cond)` only: the
`[SLEEPTIME]` placeholder of a time vector is never substituted, so every
expression handed to `inject_expression` from the time vector
`IF([INFERENCE],SLEEP([SLEEPTIME]),0)` still contains the literal
`[SLEEPTIME]` — contradicting the claim that payloads reaching the wire are
placeholder-free (the sibling `probe_operator` and `_get_output_length` do
substitute it). -/
theorem sleeptime_placeholder_survives_char_probe :
    letI a : CharProbeArgs :=
      ⟨"IF([INFERENCE],SLEEP([SLEEPTIME]),0)", 1, "q",
        "ORD(MID(\x7bquery\x7d,\x7bposition\x7d,1))=\x7bchar\x7d", 32, 127⟩
    ((char_binary_gt ctxT injSlow a).2.length = 7 ∧
      (char_binary_gt ctxT injSlow a).2.all
        (fun e => containsSub e "[SLEEPTIME]") = true) ∧
    containsSub
      (operatorProbeExpr "IF([INFERENCE],SLEEP([SLEEPTIME]),0)" 5 "6590>6420")
      "[SLEEPTIME]" = false := by
  constructor
  · constructor
    · decide
    · decide
  · decide

/-- C4.  For a monotone oracle over the ordinal range `[32, 127]` — true
exactly below the character ordinal `c` — the `_char_binary_gt` bisection
terminates with `lo - 1` the highest in-range ordinal whose
`char_at(pos) > k` probe is true, and returns `chr(lo - 1)`; when no probe in
the range is true (`c ≤ 32`, `lo` never moves past `min_ord`) it returns the
empty string. -/
theorem binary_gt_monotone_oracle_invariant (ctx : OracleCtx)
    (inject : String → Response) (a : CharProbeArgs) (c : Int)
    (hmin : a.min_ord = 32) (hmax : a.max_ord = 127)
    (horacle : ∀ mid, 32 ≤ mid → mid ≤ 127 →
      probeOf ctx inject (cmpProbeExpr ">" a mid) = decide (mid < c)) :
    (c ≤ 32 → (char_binary_gt ctx inject a).1 = "") ∧
    (32 < c →
      (char_binary_gt ctx inject a).1 =
        String.singleton (Char.ofNat (min (c - 1) 127).toNat) ∧
      ∀ k, 32 ≤ k → k ≤ 127 →
        (probeOf ctx inject (cmpProbeExpr ">" a k) = true ↔ k ≤ min (c - 1) 127)) := by
  have hclamp : ∀ mid, 32 ≤ mid → mid ≤ 127 →
      probeOf ctx inject (cmpProbeExpr ">" a mid) =
        decide (mid < max 32 (min c 128)) := by
    intro mid h1 h2
    rw [horacle mid h1 h2]
    by_cases h : mid < c
    · have : mid < max 32 (min c 128) := by omega
      simp [h, this]
    · have : ¬ mid < max 32 (min c 128) := by omega
      simp [h, this]
  have hloop : (bisectLoop ctx inject ">" a (bisectFuel a) a.min_ord a.max_ord).1 =
      max 32 (min c 128) := by
    apply bisectLoop_fst ctx inject ">" a (max 32 (min c 128)) (bisectFuel a)
      a.min_ord a.max_ord
    · omega
    · omega
    · simp only [bisectFuel, hmin, hmax]
      omega
    · intro mid hm1 hm2
      exact hclamp mid (by omega) (by omega)
  rcases hres : bisectLoop ctx inject ">" a (bisectFuel a) a.min_ord a.max_ord
    with ⟨lo, es⟩
  rw [hres] at hloop
  have hcb : char_binary_gt ctx inject a =
      (if lo > a.min_ord then String.singleton (Char.ofNat (lo - 1).toNat) else "", es) := by
    simp only [char_binary_gt, hres]
  constructor
  · intro hc
    rw [hcb]
    have : ¬ lo > a.min_ord := by omega
    simp [this]
  · intro hc
    constructor
    · rw [hcb]
      have hgt : lo > a.min_ord := by omega
      have hval : lo - 1 = min (c - 1) 127 := by omega
      simp [hgt, hval]
    · intro k h1 h2
      rw [horacle k h1 h2]
      constructor
      · intro h
        have := of_decide_eq_true h
        omega
      · intro h
        apply decide_eq_true
        omega

/-- C4 witness: with the always-slow transport the composite oracle is
monotone with character ordinal 200 (every in-range probe true), and the
extraction returns `chr(127)`. -/
theorem binary_gt_monotone_oracle_invariant_witness :
    letI a : CharProbeArgs := ⟨"[INFERENCE]", 1, "", "=", 32, 127⟩
    (∀ mid : Int, 32 ≤ mid → mid ≤ 127 →
      probeOf ctxT injSlow (cmpProbeExpr ">" a mid) = decide (mid < 200)) ∧
    (32 < (200 : Int) ∧
      (char_binary_gt ctxT injSlow a).1 =
        String.singleton (Char.ofNat (min ((200 : Int) - 1) 127).toNat)) := by
  have hyp : ∀ mid : Int, 32 ≤ mid → mid ≤ 127 →
      probeOf ctxT injSlow
        (cmpProbeExpr ">" (⟨"[INFERENCE]", 1, "", "=", 32, 127⟩ : CharProbeArgs) mid) =
        decide (mid < 200) := by
    intro mid h1 h2
    have hm : mid < 200 := by omega
    have hconst : injSlow
        (cmpProbeExpr ">" (⟨"[INFERENCE]", 1, "", "=", 32, 127⟩ : CharProbeArgs) mid) =
        rSlow := rfl
    simp only [probeOf, hconst]
    rw [show isTrueOf ctxT rSlow = true from by decide]
    simp [hm]
  refine ⟨hyp, by norm_num, ?_⟩
  exact ((binary_gt_monotone_oracle_invariant ctxT injSlow
    ⟨"[INFERENCE]", 1, "", "=", 32, 127⟩ 200 rfl rfl hyp).2 (by norm_num)).1

/-- Restricting the probe list to one strategy keeps exactly its probe. -/
theorem probeList_filter_take (s : SearchStrategy) :
    (probeList.filter (fun p => p.1 = s)).take 1 = [(s, inferenceOf s)] := by
  cases s <;> rfl

/-- The operator-probe loop returns the first strategy of its list whose
probe the oracle accepts, and the fatal error when none is accepted. -/
theorem probeOperatorLoop_find (ctx : OracleCtx) (inject : String → Response)
    (vector : String) (timesec : ℚ) (flag : Bool) :
    ∀ l : List (SearchStrategy × String),
      (probeOperatorLoop ctx inject vector timesec flag l).1 =
        match l.find? (fun p => probeOf ctx inject (operatorProbeExpr vector timesec p.2)) with
        | some p => Except.ok ⟨p.1, flag⟩
        | none => Except.error extractionImpossibleMsg := by
  intro l
  induction l with
  | nil => rfl
  | cons p rest ih =>
    obtain ⟨strat, inference⟩ := p
    cases hpb : probeOf ctx inject (operatorProbeExpr vector timesec inference) with
    | true =>
      simp only [probeOperatorLoop, hpb, List.find?_cons, if_true]
    | false =>
      simp only [probeOperatorLoop, hpb, List.find?_cons]
      simpa using ih

/-- The operator-probe loop yields the fatal error when every probe of its
list is rejected. -/
theorem probeOperatorLoop_all_false (ctx : OracleCtx) (inject : String → Response)
    (vector : String) (timesec : ℚ) (flag : Bool) :
    ∀ l : List (SearchStrategy × String),
      (∀ p ∈ l, probeOf ctx inject (operatorProbeExpr vector timesec p.2) = false) →
      (probeOperatorLoop ctx inject vector timesec flag l).1 =
        Except.error extractionImpossibleMsg := by
  intro l
  induction l with
  | nil => intro _; rfl
  | cons p rest ih =>
    intro hall
    obtain ⟨strat, inference⟩ := p
    have h1 := hall (strat, inference) (by simp)
    simp only [probeOperatorLoop, h1]
    simpa using ih (fun q hq => hall q (by simp [hq]))

/-- C2.  The operator probe tries the four strategies in the fixed order
BINARY_GT, NOT BETWEEN, IN, LINEAR_EQ and selects the first whose oracle
agrees; a forced `fetch_using` value restricts the probing to the forced
strategy alone; and when every probe is rejected the fatal
extraction-impossible `RuntimeError` is raised. -/
theorem probe_operator_strategy_selection (ctx : OracleCtx)
    (inject : String → Response) (vector : String) (timesec : ℚ) :
    probeList.map Prod.fst =
      [SearchStrategy.binary_gt, SearchStrategy.between,
        SearchStrategy.in_op, SearchStrategy.linear_eq] ∧
    ((probe_operator ctx inject vector timesec none).1 =
      match probeList.find?
          (fun p => probeOf ctx inject (operatorProbeExpr vector timesec p.2)) with
      | some p => Except.ok ⟨p.1, false⟩
      | none => Except.error extractionImpossibleMsg) ∧
    (∀ f s, nameMap (pyLower f) = some s → optStrTruthy (some f) = true →
      (probe_operator ctx inject vector timesec (some f)).1 =
        if probeOf ctx inject (operatorProbeExpr vector timesec (inferenceOf s)) then
          Except.ok ⟨s, true⟩
        else Except.error extractionImpossibleMsg) ∧
    (∀ fu, (∀ p ∈ probeList,
        probeOf ctx inject (operatorProbeExpr vector timesec p.2) = false) →
      (probe_operator ctx inject vector timesec fu).1 =
        Except.error extractionImpossibleMsg) := by
  refine ⟨by rfl, ?_, ?_, ?_⟩
  · simp only [probe_operator]
    exact probeOperatorLoop_find ctx inject vector timesec false probeList
  · intro f s hs hf
    simp only [probe_operator, hf, hs, Option.isSome_some, Bool.and_self,
      if_true, probeList_filter_take]
    cases hpb : probeOf ctx inject (operatorProbeExpr vector timesec (inferenceOf s)) with
    | true => simp only [probeOperatorLoop, hpb, if_true]
    | false => simp only [probeOperatorLoop, hpb]; rfl
  · intro fu hall
    simp only [probe_operator]
    apply probeOperatorLoop_all_false
    intro p hp
    apply hall
    rcases fu with _ | f
    · exact hp
    · dsimp only at hp
      by_cases hc : (optStrTruthy (some f) && (nameMap (pyLower f)).isSome) = true
      · rw [if_pos hc] at hp
        rcases hn : nameMap (pyLower f) with _ | s
        · rw [hn] at hc; simp at hc
        · rw [hn] at hp
          simp only [probeList_filter_take] at hp
          have hps : p = (s, inferenceOf s) := by simpa using hp
          rw [hps]
          cases s <;> simp [probeList, inferenceOf]
      · rw [if_neg hc] at hp
        exact hp

/-- C2 witness: with `fetch_using="in"` (a valid forced name) and an
always-slow time oracle the probe returns the forced IN strategy, marked
forced. -/
theorem probe_operator_strategy_selection_witness :
    nameMap (pyLower "in") = some SearchStrategy.in_op ∧
    optStrTruthy (some "in") = true ∧
    (probe_operator ctxT injSlow "[INFERENCE]" 5 (some "in")).1 =
      Except.ok ⟨SearchStrategy.in_op, true⟩ := by
  refine ⟨by decide, by decide, ?_⟩
  have h := (probe_operator_strategy_selection ctxT injSlow "[INFERENCE]" 5).2.2.1
    "in" SearchStrategy.in_op (by decide) (by decide)
  rw [h]
  rw [show probeOf ctxT injSlow
    (operatorProbeExpr "[INFERENCE]" 5 (inferenceOf SearchStrategy.in_op)) = true
    from by decide]
  rfl

/-- C3 counterexample: a response 0.4 seconds under the 5-second threshold is
slow for the specification's jittered oracle (jitter = max(0.5, 0.5) = 0.5)
but not for the code, whose time test compares against the bare threshold. -/
theorem time_oracle_jitter_counterexample :
    ctxT.vector_type = some VectorType.time ∧ ctxT.timesec = 5 ∧
    isTrueOf ctxT ⟨200, 23/5, 100, "", "", false⟩ = false ∧
    is_slow_spec ⟨200, 23/5, 100, "", "", false⟩ 5 = true := by
  refine ⟨rfl, rfl, ?_, ?_⟩
  · simp only [isTrueOf, ctxT]
    norm_num
  · simp only [is_slow_spec]
    rw [show ((5 : ℚ) / 10) = 1/2 from by norm_num, max_self]
    norm_num

/-- C3 (amended).  The time oracle of `core/extract.py` classifies a response
as slow exactly when `response_time >= timesec`: no jitter allowance is
subtracted anywhere (every time branch in `probe_operator`,
`_char_binary_gt`, `_char_between`, `_char_in`, `_char_linear` and
`_get_output_length` is this same comparison). -/
theorem time_oracle_bare_threshold (ctx : OracleCtx) (r : Response)
    (h : ctx.vector_type = some VectorType.time) :
    isTrueOf ctx r = true ↔ r.response_time ≥ ctx.timesec := by
  simp [isTrueOf, h]

/-- C3 witness: the amended time test applied at the always-slow response
with the 5-second context. -/
theorem time_oracle_bare_threshold_witness :
    ctxT.vector_type = some VectorType.time ∧ isTrueOf ctxT rSlow = true := by
  refine ⟨rfl, ?_⟩
  exact (time_oracle_bare_threshold ctxT rSlow rfl).mpr (by norm_num [rSlow, ctxT])

/-- C5.  When a dump key is supplied, `fresh_queries` is unset and the
session already holds a storage record whose value length equals its
expected length, `fetch_characters` returns that persisted value (marked
resumed) having performed zero transport calls and no session writes, and
leaving `conf.threads` untouched. -/
theorem fetch_characters_resume_zero_transport (conf : FetchConf)
    (env : FetchEnv) (ctx : OracleCtx) (vector : String) (payloads : List String)
    (dt : String) (row : StorageRow) (rows : List StorageRow)
    (hfresh : conf.fresh_queries = false)
    (hstore : env.storage dt = row :: rows)
    (hcomplete : row.value.length = row.length) :
    fetch_characters conf env ctx vector payloads (some dt) =
      Except.ok ⟨⟨true, row.value, none, "", true⟩, 0, conf.threads, []⟩ := by
  simp [fetch_characters, hfresh, hstore, hcomplete]

/-- C5 witness: the persisted record `("current_db", "testdb", 6)` is
complete, so the concrete run returns it with zero transport calls. -/
theorem fetch_characters_resume_zero_transport_witness :
    (FetchConf.mk "" false none none).fresh_queries = false ∧
    ((fun _ => [StorageRow.mk "testdb" 6]) : String → List StorageRow) "current_db" =
      [StorageRow.mk "testdb" 6] ∧
    ("testdb").length = 6 ∧
    fetch_characters (FetchConf.mk "" false none none)
      ⟨injSlow, fun _ => [StorageRow.mk "testdb" 6], [], []⟩ ctxT "" []
      (some "current_db") =
      Except.ok ⟨⟨true, "testdb", none, "", true⟩, 0, none, []⟩ := by
  refine ⟨rfl, rfl, rfl, ?_⟩
  exact fetch_characters_resume_zero_transport (FetchConf.mk "" false none none)
    ⟨injSlow, fun _ => [StorageRow.mk "testdb" 6], [], []⟩ ctxT "" []
    "current_db" (StorageRow.mk "testdb" 6) [] rfl rfl rfl

/-- The `_char_linear` loop returns the first character of its list whose
equality probe is accepted, and the empty string when none is. -/
theorem charLinearLoop_find (ctx : OracleCtx) (inject : String → Response)
    (a : CharProbeArgs) :
    ∀ l : List Char,
      (charLinearLoop ctx inject a l).1 =
        match l.find? (fun ch => probeOf ctx inject (linearProbeExpr a ch)) with
        | some ch => String.singleton ch
        | none => "" := by
  intro l
  induction l with
  | nil => rfl
  | cons ch rest ih =>
    cases hpb : probeOf ctx inject (linearProbeExpr a ch) with
    | true => simp only [charLinearLoop, hpb, List.find?_cons, if_true]
    | false =>
      simp only [charLinearLoop, hpb, List.find?_cons]
      simpa using ih

/-- C9 counterexample: the character `!` (ordinal 33, inside `[32, 127]`) has
a true equality probe, but it is not in the heuristic alphabet and
`_char_linear` returns the empty string — there is no fallback scan of
`[32, 127]`. -/
theorem char_linear_missing_fallback_counterexample :
    (char_linear ctxT injBang aLin defaultCharList).1 = "" ∧
    probeOf ctxT injBang (linearProbeExpr aLin (Char.ofNat 33)) = true ∧
    ¬ (Char.ofNat 33) ∈ defaultCharList.data := by
  refine ⟨by decide, by decide, by decide⟩

/-- C9 (amended).  `_char_linear` iterates the given alphabet (by default
`" ._-@"` + digits + lower case + upper case) and returns the first character
whose equality probe is true; when the alphabet is exhausted it returns the
empty string, with no fallback scan. -/
theorem char_linear_first_match_no_fallback (ctx : OracleCtx)
    (inject : String → Response) (a : CharProbeArgs) (charList : String) :
    (char_linear ctx inject a charList).1 =
      (match charList.data.find? (fun ch => probeOf ctx inject (linearProbeExpr a ch)) with
       | some ch => String.singleton ch
       | none => "") ∧
    defaultCharList =
      " ._-@1234567890abcdefghijklmnopqrstuvwxyzABCDEFGHIJKLMNOPQRSTUVWXYZ" := by
  exact ⟨charLinearLoop_find ctx inject a charList.data, rfl⟩

/-- C6.  `get_tamper_chain` returns tamper instances, and `apply_tamper_chain`
evaluates `tamper().tamper(current, ctx)` on each of them: calling an
instance of `BaseTamper` (which defines no `__call__`) raises `TypeError`, so
any non-empty chain crashes instead of composing, while the empty chain does
return the payload unchanged with no applied entries and confidence 1.0. -/
theorem apply_tamper_chain_instance_call_typeerror :
    apply_tamper_chain "AND 1=1" TamperStage.injection none (some ["charencode"])
      (load_all_tampers [charencodeClass]) [] =
      Except.error (PyErr.typeError "object is not callable") ∧
    (get_tamper_chain TamperStage.injection none (some ["charencode"])
      (load_all_tampers [charencodeClass])).length = 1 ∧
    apply_tamper_chain "AND 1=1" TamperStage.injection none none [] [] =
      Except.ok ⟨"AND 1=1", [], 1⟩ := by
  refine ⟨rfl, rfl, rfl⟩

/-- The confirmation loop records an even number of observations — two per
vulnerable pair — and at most two per pair of its list, whether or not the
content-length filter breaks early. -/
theorem confirmLoop_length (env : ConfirmEnv) (vector : String) (ctOn : Bool)
    (ctt ctf : Option Nat) :
    ∀ l, (confirmLoop env vector ctOn ctt ctf l).length % 2 = 0 ∧
      (confirmLoop env vector ctOn ctt ctf l).length ≤ 2 * l.length := by
  intro l
  induction l with
  | nil => simp [confirmLoop]
  | cons p rest ih =>
    obtain ⟨t, f⟩ := p
    obtain ⟨ih1, ih2⟩ := ih
    simp only [confirmLoop, List.length_cons]
    split_ifs <;> simp_all [List.length_append] <;> omega

/-- C7.  Boolean confirmation uses five probe pairs — three when the observed
base latency exceeds 8 seconds — each vulnerable pair contributing two
observations; the injection is declared confirmed exactly when the agreement
rate `tests.length / (2 * pairs)` reaches 0.8, or the latency exceeds 8
seconds and the rate reaches 0.7.  Equivalently, in the slow case all three
pairs must agree (6 observations), and otherwise at least four of the five
pairs must (8 of 10 observations). -/
theorem confirm_boolean_agreement_thresholds (env : ConfirmEnv) (vector : String)
    (rt : ℚ) (ctOn : Bool) (ctt ctf : Option Nat) :
    ((if rt > 8 then boolTestCases.take 3 else boolTestCases).length =
      if rt > 8 then 3 else 5) ∧
    ((confirm_boolean_injection env vector rt ctOn ctt ctf).vulnerable =
      (decide (((confirm_boolean_injection env vector rt ctOn ctt ctf).tests.length : ℚ) /
          ((if rt > 8 then (3 : ℚ) else 5) * 2) ≥ 8/10) ||
        (decide (rt > 8) &&
          decide (((confirm_boolean_injection env vector rt ctOn ctt ctf).tests.length : ℚ) /
            ((if rt > 8 then (3 : ℚ) else 5) * 2) ≥ 7/10)))) ∧
    (rt > 8 →
      (confirm_boolean_injection env vector rt ctOn ctt ctf).vulnerable =
        decide ((confirm_boolean_injection env vector rt ctOn ctt ctf).tests.length = 6)) ∧
    (¬ rt > 8 →
      (confirm_boolean_injection env vector rt ctOn ctt ctf).vulnerable =
        decide (8 ≤ (confirm_boolean_injection env vector rt ctOn ctt ctf).tests.length)) := by
  have hunf : ∀ (cs : List (String × String)) (k : ℚ),
      (if rt > 8 then boolTestCases.take 3 else boolTestCases) = cs →
      (cs.length : ℚ) = k → cs.length ≠ 0 →
      confirm_boolean_injection env vector rt ctOn ctt ctf =
        ⟨(if ((confirmLoop env vector ctOn ctt ctf cs).length : ℚ) / (k * 2) ≥ 8/10
            then true
          else if rt > 8 ∧
              ((confirmLoop env vector ctOn ctt ctf cs).length : ℚ) / (k * 2) ≥ 7/10
            then true else false),
          confirmLoop env vector ctOn ctt ctf cs⟩ := by
    intro cs k hcs hk hk0
    simp only [confirm_boolean_injection, hcs, if_neg hk0, hk]
  by_cases hrt : rt > 8
  · have hlen := confirmLoop_length env vector ctOn ctt ctf (boolTestCases.take 3)
    have hle : (confirmLoop env vector ctOn ctt ctf (boolTestCases.take 3)).length ≤ 6 := by
      have := hlen.2
      simpa using this
    have hmod := hlen.1
    have ho := hunf (boolTestCases.take 3) 3 (if_pos hrt)
      (by norm_num [boolTestCases])
      (by decide)
    set n := (confirmLoop env vector ctOn ctt ctf (boolTestCases.take 3)).length with hn
    have h8 : ((n : ℚ) / (3 * 2) ≥ 8/10) ↔ 24 ≤ 5 * n := by
      rw [show ((3 : ℚ) * 2) = 6 from by norm_num, ge_iff_le,
        le_div_iff (by norm_num : (0:ℚ) < 6)]
      constructor
      · intro h
        have h2 : (24 : ℚ) ≤ 5 * n := by linarith
        exact_mod_cast h2
      · intro h
        have h2 : (24 : ℚ) ≤ 5 * n := by exact_mod_cast h
        linarith
    have h7 : ((n : ℚ) / (3 * 2) ≥ 7/10) ↔ 21 ≤ 5 * n := by
      rw [show ((3 : ℚ) * 2) = 6 from by norm_num, ge_iff_le,
        le_div_iff (by norm_num : (0:ℚ) < 6)]
      constructor
      · intro h
        have h2 : (21 : ℚ) ≤ 5 * n := by linarith
        exact_mod_cast h2
      · intro h
        have h2 : (21 : ℚ) ≤ 5 * n := by exact_mod_cast h
        linarith
    refine ⟨by rw [if_pos hrt, if_pos hrt]; exact rfl, ?_, ?_, ?_⟩
    · rw [ho, if_pos hrt]
      simp only [ConfirmOutcome.vulnerable, ConfirmOutcome.tests]
      by_cases hA : ((n : ℚ) / (3 * 2) ≥ 8/10) <;>
        by_cases hB : ((n : ℚ) / (3 * 2) ≥ 7/10) <;>
        simp [hA, hB, hrt, ← hn]
    · intro _
      rw [ho]
      simp only [ConfirmOutcome.vulnerable, ConfirmOutcome.tests]
      by_cases hA : ((n : ℚ) / (3 * 2) ≥ 8/10) <;>
        by_cases hB : ((n : ℚ) / (3 * 2) ≥ 7/10)
      · have h6 : n = 6 := by
          have := h8.mp hA
          omega
        rw [if_pos hA, ← hn, h6]
        simp
      · rw [h8] at hA
        rw [h7] at hB
        omega
      · rw [h8] at hA
        rw [h7] at hB
        omega
      · have h6 : ¬ n = 6 := by
          rw [h7] at hB
          omega
        simp [hA, hB, hrt, ← hn, h6]
    · intro h
      exact absurd hrt h
  · have hlen := confirmLoop_length env vector ctOn ctt ctf boolTestCases
    have hle : (confirmLoop env vector ctOn ctt ctf boolTestCases).length ≤ 10 := by
      have := hlen.2
      simpa using this
    have hmod := hlen.1
    have ho := hunf boolTestCases 5 (if_neg hrt)
      (by norm_num [boolTestCases])
      (by decide)
    set n := (confirmLoop env vector ctOn ctt ctf boolTestCases).length with hn
    have h8 : ((n : ℚ) / (5 * 2) ≥ 8/10) ↔ 8 ≤ n := by
      rw [show ((5 : ℚ) * 2) = 10 from by norm_num, ge_iff_le,
        le_div_iff (by norm_num : (0:ℚ) < 10)]
      constructor
      · intro h
        have h2 : (8 : ℚ) ≤ n := by linarith
        exact_mod_cast h2
      · intro h
        have h2 : (8 : ℚ) ≤ n := by exact_mod_cast h
        linarith
    refine ⟨by rw [if_neg hrt, if_neg hrt]; exact rfl, ?_, ?_, ?_⟩
    · rw [ho, if_neg hrt]
      simp only [ConfirmOutcome.vulnerable, ConfirmOutcome.tests]
      by_cases hA : ((n : ℚ) / (5 * 2) ≥ 8/10) <;>
        by_cases hB : ((n : ℚ) / (5 * 2) ≥ 7/10) <;>
        simp [hA, hB, hrt, ← hn]
    · intro h
      exact absurd h hrt
    · intro _
      rw [ho]
      simp only [ConfirmOutcome.vulnerable, ConfirmOutcome.tests]
      by_cases hA : ((n : ℚ) / (5 * 2) ≥ 8/10)
      · have hge : 8 ≤ n := h8.mp hA
        simp [hA, hrt, ← hn, hge]
      · have hlt : ¬ 8 ≤ n := fun hc => hA (h8.mpr hc)
        simp [hA, hrt, ← hn, hlt]

/-- C7 witness: a 9-second base latency reduces the run to three pairs, and
with every pair agreeing the verdict equals the all-six-observations test. -/
theorem confirm_boolean_agreement_thresholds_witness :
    (9 : ℚ) > 8 ∧
    (confirm_boolean_injection envAllVuln "x" 9 false none none).vulnerable =
      decide ((confirm_boolean_injection envAllVuln "x" 9 false none none).tests.length = 6) := by
  exact ⟨by norm_num,
    (confirm_boolean_agreement_thresholds envAllVuln "x" 9 false none none).2.2.1
      (by norm_num)⟩

/-- C8 (amended).  Whenever `fetch_characters` reaches its extraction loop
(no complete resume record, error-based fast path skipped, a non-zero length
discovered and an operator probe accepted), the final value of `conf.threads`
is cleared exactly when a truthy thread count was configured and
`vector_type` is `"boolean"`; in particular a time-based run leaves the
configured thread count untouched. -/
theorem threads_cleared_only_for_boolean (conf : FetchConf) (env : FetchEnv)
    (ctx : OracleCtx) (vector : String) (payloads : List String)
    (hvec : containsSub conf.vectors "error_vector" = false)
    (hlen : (get_output_length (ctxDefaulted ctx) env.inject vector payloads
      env.nocTemplates env.lengthTemplates).1 ≠ 0)
    (p : OperatorProbe)
    (hprobe : (probe_operator ctx env.inject vector ctx.timesec conf.fetch_using).1 =
      Except.ok p) :
    (fetch_characters conf env ctx vector payloads none).toOption.map
        FetchOutcome.threadsOut =
      some (if optNatTruthy conf.threads ∧ ctx.vector_type = some VectorType.boolean
        then none else conf.threads) := by
  have htry : tryErrorBased conf = Except.ok (CharResult.default, 0) := by
    simp [tryErrorBased, hvec]
  simp only [fetch_characters, htry]
  rcases hgl : get_output_length (ctxDefaulted ctx) env.inject vector payloads
    env.nocTemplates env.lengthTemplates with ⟨L, n2⟩
  rw [hgl] at hlen
  simp only at hlen
  rcases hpo : probe_operator ctx env.inject vector ctx.timesec conf.fetch_using
    with ⟨res, n3⟩
  rw [hpo] at hprobe
  simp only at hprobe
  subst hprobe
  simp only [CharResult.default, if_neg hlen]
  rcases hcl : charLoop (ctxDefaulted ctx) env.inject p.strategy vector
    (payloads.headD "") none conf.fresh_queries L (L + 1 - 1) 1 "" with ⟨chars, n4, ups⟩
  simp only [hcl]
  rfl

/-- C8 counterexample: a time-based run that reaches the per-character loop
(its result records the selected BINARY_GT strategy) finishes with
`conf.threads` still set to 5 — the guard clears threads only when
`vector_type == "boolean"`, not for time-based extraction as claimed. -/
theorem time_extraction_keeps_threads_counterexample :
    ctxT.vector_type = some VectorType.time ∧
    confThreads.threads = some 5 ∧
    (fetch_characters confThreads envT8 ctxT "[INFERENCE]" ["q"] none).toOption.map
      FetchOutcome.threadsOut = some (some 5) ∧
    (fetch_characters confThreads envT8 ctxT "[INFERENCE]" ["q"] none).toOption.map
      (fun o => o.result.strategy) = some (some SearchStrategy.binary_gt) := by
  refine ⟨rfl, rfl, by decide, by decide⟩

/-- C8 witness: the boolean run through the same pipeline clears the
configured five threads. -/
theorem threads_cleared_only_for_boolean_witness :
    containsSub confThreads.vectors "error_vector" = false ∧
    (get_output_length (ctxDefaulted ctxB) envB.inject "[INFERENCE]" ["q"]
      envB.nocTemplates envB.lengthTemplates).1 ≠ 0 ∧
    (fetch_characters confThreads envB ctxB "[INFERENCE]" ["q"] none).toOption.map
      FetchOutcome.threadsOut = some none := by
  refine ⟨by decide, by decide, ?_⟩
  have h := threads_cleared_only_for_boolean confThreads envB ctxB "[INFERENCE]" ["q"]
    (by decide) (by decide) ⟨SearchStrategy.binary_gt, false⟩ (by rfl)
  rw [h]
  have hcond : optNatTruthy confThreads.threads ∧
      ctxB.vector_type = some VectorType.boolean := ⟨by decide, rfl⟩
  rw [if_pos hcond]

/-- Case analysis of `FingerPrintDBMS.fingerprint` over the six boolean-pair
outcomes: the first candidate whose heuristic pair passes is always named,
with confirmation-level confidence only when its confirmation pair also
passes; the unknown result arises only when all three heuristics fail. -/
theorem fingerprint_cases (cb : String → String → Bool) :
    fingerprint cb =
      if cb "(SELECT QUARTER(NULL)) IS NULL" "(SELECT 0x47776a68)=\x27qSBB\x27" then
        (if cb "QUARTER(NULL) IS NULL" "1=2" then
          ⟨some "MySQL", 98/100, "confirmation"⟩
        else ⟨some "MySQL", 85/100, "heuristic"⟩)
      else if cb "CONVERT_TO((CHR(115)||CHR(120)||CHR(115)||CHR(101)), QUOTE_IDENT(NULL)) IS NULL"
          "(SELECT 0x414141)=\x27BBB\x27" then
        (if cb "COALESCE(8009, NULL)=8009" "1=2" then
          ⟨some "PostgreSQL", 97/100, "confirmation"⟩
        else ⟨some "PostgreSQL", 82/100, "heuristic"⟩)
      else if cb "(SELECT INSTR2(NULL,NULL) FROM DUAL) IS NULL"
          "(SELECT CHR(112)||CHR(116)||CHR(90)||CHR(78) FROM DUAL)=\x27SOTQ\x27" then
        (if cb "NVL(RAWTOHEX(5984),5984)=RAWTOHEX(5984)" "1=2" then
          ⟨some "Oracle", 96/100, "confirmation"⟩
        else ⟨some "Oracle", 84/100, "heuristic"⟩)
      else ⟨none, 0, "none"⟩ := by
  by_cases h1 : cb "(SELECT QUARTER(NULL)) IS NULL" "(SELECT 0x47776a68)=\x27qSBB\x27"
  · by_cases h2 : cb "QUARTER(NULL) IS NULL" "1=2" <;>
      simp only [fingerprint, fingerprintStep, check_mysql, h1, h2] <;> norm_num
  · by_cases h3 : cb "CONVERT_TO((CHR(115)||CHR(120)||CHR(115)||CHR(101)), QUOTE_IDENT(NULL)) IS NULL"
        "(SELECT 0x414141)=\x27BBB\x27"
    · by_cases h4 : cb "COALESCE(8009, NULL)=8009" "1=2" <;>
        simp only [fingerprint, fingerprintStep, check_mysql, check_postgresql,
          h1, h3, h4] <;> norm_num
    · by_cases h5 : cb "(SELECT INSTR2(NULL,NULL) FROM DUAL) IS NULL"
          "(SELECT CHR(112)||CHR(116)||CHR(90)||CHR(78) FROM DUAL)=\x27SOTQ\x27"
      · by_cases h6 : cb "NVL(RAWTOHEX(5984),5984)=RAWTOHEX(5984)" "1=2" <;>
          simp only [fingerprint, fingerprintStep, check_mysql, check_postgresql,
            check_oracle, h1, h3, h5, h6] <;> norm_num
      · simp only [fingerprint, fingerprintStep, check_mysql, check_postgresql,
          check_oracle, h1, h3, h5]
        norm_num

/-- C10 counterexample: with the MySQL heuristic passing and the MySQL
confirmation failing, `fingerprint` still names MySQL (confidence 0.85,
method `heuristic`) — the claim that a DBMS is named only when its
confirmation pair passes, and that unknown is reported otherwise, fails. -/
theorem fingerprint_names_unconfirmed_dbms_counterexample :
    cbHeurOnly "QUARTER(NULL) IS NULL" "1=2" = false ∧
    fingerprint cbHeurOnly =
      ⟨some "MySQL", 85/100, "heuristic"⟩ := by
  have h1 : cbHeurOnly "(SELECT QUARTER(NULL)) IS NULL"
      "(SELECT 0x47776a68)=\x27qSBB\x27" = true := by decide
  have h2 : cbHeurOnly "QUARTER(NULL) IS NULL" "1=2" = false := by decide
  refine ⟨h2, ?_⟩
  rw [fingerprint_cases cbHeurOnly]
  simp [h1, h2]

/-- C10 (amended).  The engine probes MySQL, then PostgreSQL, then Oracle,
each with a heuristic pair (confidence 0.85 / 0.82 / 0.84) followed by a
confirmation pair (0.98 / 0.97 / 0.96): it names the first DBMS whose
heuristic pair passes — with confirmation-level confidence and method only
when that DBMS's confirmation pair also passes — and reports unknown
(`dbms = None`) exactly when every candidate's heuristic pair fails. -/
theorem fingerprint_first_heuristic_wins (cb : String → String → Bool) :
    (fingerprint cb =
      if cb "(SELECT QUARTER(NULL)) IS NULL" "(SELECT 0x47776a68)=\x27qSBB\x27" then
        (if cb "QUARTER(NULL) IS NULL" "1=2" then
          ⟨some "MySQL", 98/100, "confirmation"⟩
        else ⟨some "MySQL", 85/100, "heuristic"⟩)
      else if cb "CONVERT_TO((CHR(115)||CHR(120)||CHR(115)||CHR(101)), QUOTE_IDENT(NULL)) IS NULL"
          "(SELECT 0x414141)=\x27BBB\x27" then
        (if cb "COALESCE(8009, NULL)=8009" "1=2" then
          ⟨some "PostgreSQL", 97/100, "confirmation"⟩
        else ⟨some "PostgreSQL", 82/100, "heuristic"⟩)
      else if cb "(SELECT INSTR2(NULL,NULL) FROM DUAL) IS NULL"
          "(SELECT CHR(112)||CHR(116)||CHR(90)||CHR(78) FROM DUAL)=\x27SOTQ\x27" then
        (if cb "NVL(RAWTOHEX(5984),5984)=RAWTOHEX(5984)" "1=2" then
          ⟨some "Oracle", 96/100, "confirmation"⟩
        else ⟨some "Oracle", 84/100, "heuristic"⟩)
      else ⟨none, 0, "none"⟩) ∧
    ((fingerprint cb).dbms = none ↔
      (cb "(SELECT QUARTER(NULL)) IS NULL" "(SELECT 0x47776a68)=\x27qSBB\x27" = false ∧
        cb "CONVERT_TO((CHR(115)||CHR(120)||CHR(115)||CHR(101)), QUOTE_IDENT(NULL)) IS NULL"
          "(SELECT 0x414141)=\x27BBB\x27" = false ∧
        cb "(SELECT INSTR2(NULL,NULL) FROM DUAL) IS NULL"
          "(SELECT CHR(112)||CHR(116)||CHR(90)||CHR(78) FROM DUAL)=\x27SOTQ\x27" = false)) := by
  refine ⟨fingerprint_cases cb, ?_⟩
  rw [fingerprint_cases cb]
  by_cases h1 : cb "(SELECT QUARTER(NULL)) IS NULL" "(SELECT 0x47776a68)=\x27qSBB\x27"
  · by_cases h2 : cb "QUARTER(NULL) IS NULL" "1=2" <;> simp [h1, h2]
  · by_cases h3 : cb "CONVERT_TO((CHR(115)||CHR(120)||CHR(115)||CHR(101)), QUOTE_IDENT(NULL)) IS NULL"
        "(SELECT 0x414141)=\x27BBB\x27"
    · by_cases h4 : cb "COALESCE(8009, NULL)=8009" "1=2" <;> simp [h1, h3, h4]
    · by_cases h5 : cb "(SELECT INSTR2(NULL,NULL) FROM DUAL) IS NULL"
          "(SELECT CHR(112)||CHR(116)||CHR(90)||CHR(78) FROM DUAL)=\x27SOTQ\x27"
      · by_cases h6 : cb "NVL(RAWTOHEX(5984),5984)=RAWTOHEX(5984)" "1=2" <;>
          simp [h1, h3, h5, h6]
      · simp [h1, h3, h5]

end Ghauri
